import Mathlib

/-!
Shallow embedding of `sensor_upsc/main.go` from fmoessbauer/sensor_exporter.

The UPS collector is embedded as pure Lean functions:
* `NewSensor` embeds the Go constructor `NewSensor(opts string)`;
* `Sensor.Scrape` embeds the Go method `(s Sensor) Scrape()`, with the network
  made explicit: the outcome of `net.DialTimeout` is a `DialRes` argument and
  the successive outcomes of `reader.ReadString('\n')` are a `List ReadRes`
  argument (the trace of reads the connection yields);
* the compiled regular expression `VAR <ups> ([a-zA-Z.]*) "(.*)"` is embedded
  as the string matcher `findStringSubmatch`, specialised to that very pattern
  under Go's leftmost-first greedy matching semantics;
* `float64` readings are embedded as exact rationals: `parseFloat` embeds the
  decimal grammar of `strconv.ParseFloat` and `fmt2` embeds `%.2f` formatting.
-/

set_option autoImplicit false

namespace SensorUpsc

/-! ## String helpers (Go `strings.Split` on a one-character separator) -/

/-- Embeds Go `strings.Split(s, sep)` for a one-character separator `c`,
working on the character list of the string: splits at every occurrence of
`c`, keeping empty fields, and returns `[input]` when `c` does not occur.
`strings.Split` of the empty string yields `[""]`, matched by the `[]` case. -/
def splitCh (c : Char) : List Char → List (List Char)
  | [] => [[]]
  | x :: xs =>
    if x = c then
      [] :: splitCh c xs
    else
      match splitCh c xs with
      | g :: gs => (x :: g) :: gs
      | [] => [[x]]

/-! ## The compiled line pattern

`NewSensor` compiles `reString := "VAR " + ups + " ([a-zA-Z.]*) \"(.*)\""` and
`Scrape` runs `s.Re.FindStringSubmatch(res)` on every response line.  For a
device name free of regex metacharacters the pattern matches literally; the
functions below embed exactly that search (leftmost starting position, the
first capture group is a greedy maximal run of `[a-zA-Z.]`, the second is
greedy up to the last `"` before a newline, since `.` does not match `\n`). -/

/-- Character class `[a-zA-Z.]` of the first capture group. -/
def isFieldChar (c : Char) : Bool := c.isAlpha || c = '.'

/-- Regex metacharacters of Go's `regexp` syntax.  A device name containing
none of them is interpolated into the pattern literally. -/
def regexMeta : List Char :=
  ['\\', '.', '+', '*', '?', '(', ')', '|', '[', ']', '\x7b', '\x7d', '^', '$']

/-- Whether the pattern `VAR <ups> ([a-zA-Z.]*) "(.*)"` built by `NewSensor`
compiles and matches the device name literally.  Modelled approximation of
`regexp.Compile`: device names free of metacharacters always compile (Go also
accepts some metacharacter-containing names, with non-literal matching
semantics that no claim exercises). -/
def upsPatternOk (ups : String) : Bool :=
  ups.data.all (fun c => !(regexMeta.contains c))

/-- Matches the pattern suffix `([a-zA-Z.]*) "(.*)"` at the current position:
a greedy maximal run of field characters, a space, an opening quote, then the
greedy group-2 content extending to the last quote on the line (a `.` in a Go
regex does not cross `\n`).  Returns the two capture groups. -/
def matchTail (l : List Char) : Option (String × String) :=
  let run := l.takeWhile isFieldChar
  match l.dropWhile isFieldChar with
  | ' ' :: '"' :: r2 =>
    let stretch := r2.takeWhile (fun c => c ≠ '\n')
    let revS := stretch.reverse
    let revTail := revS.takeWhile (fun c => c ≠ '"')
    if revTail.length = revS.length then
      none
    else
      some (String.mk run, String.mk ((revS.drop (revTail.length + 1)).reverse))
  | _ => none

/-- Searches for the leftmost start position where the literal prefix
`VAR <ups> ` matches followed by `matchTail`, mirroring Go's leftmost-first
regex search. -/
def findSub (pat : List Char) : List Char → Option (String × String)
  | [] =>
    if pat.isPrefixOf ([] : List Char) then matchTail (List.drop pat.length []) else none
  | x :: rest =>
    match (if pat.isPrefixOf (x :: rest) then matchTail ((x :: rest).drop pat.length) else none) with
    | some r => some r
    | none => findSub pat rest

/-- Embeds `s.Re.FindStringSubmatch(res)` for the compiled pattern
`VAR <ups> ([a-zA-Z.]*) "(.*)"`: `some (field, raw)` corresponds to a
submatch slice of length 3 in Go, `none` to no match. -/
def findStringSubmatch (ups line : String) : Option (String × String) :=
  findSub ("VAR " ++ ups ++ " ").data line.data

/-! ## Numeric value embedding

Go readings are `float64`.  All numeric codes of the string-mapping table and
all values exercised by the claims are exactly representable, so readings are
embedded as `Rat`. -/

/-- Rounds `n * 100 / d` (a value in centi-units) to the nearest integer,
ties to even, the rounding `strconv` applies when formatting a binary value
at fixed precision; used with `0 ≤ n < d` taken from a rational in lowest
terms. -/
def roundCentiHE (n d : Int) : Int :=
  let t := n * 100
  let fl := t / d
  let r := t % d
  if 2 * r < d then fl
  else if 2 * r > d then fl + 1
  else if fl % 2 = 0 then fl else fl + 1

/-- Formats a natural number of centi-units as `<int>.<2 digits>`. -/
def fmtCenti (m : Nat) : String :=
  let ip := m / 100
  let r := m % 100
  toString ip ++ "." ++ (if r < 10 then "0" ++ toString r else toString r)

/-- Embeds Go `fmt.Sprintf("%.2f", x)`: fixed two-decimal formatting with a
leading minus sign for negative values (Go prints `-0.00` for tiny negative
values, matched by formatting the rounded magnitude after the sign).
Computed on the numerator and denominator directly so that the kernel can
evaluate it. -/
def fmt2 (q : Rat) : String :=
  if q.num < 0 then "-" ++ fmtCenti (roundCentiHE (-q.num) (q.den : Int)).toNat
  else fmtCenti (roundCentiHE q.num (q.den : Int)).toNat

/-- Numeric value of a digit run, most significant first. -/
def digitsVal (l : List Char) : Nat :=
  l.foldl (fun acc c => acc * 10 + (c.toNat - '0'.toNat)) 0

/-- Parses an optional exponent suffix `[eE][+-]?digits` ending the string:
`some e` when the remainder is empty or a well-formed exponent, else `none`. -/
def parseExp (l : List Char) : Option Int :=
  match l with
  | [] => some 0
  | e :: rest =>
    if e = 'e' ∨ e = 'E' then
      let (neg, ds) :=
        match rest with
        | '+' :: ds => (false, ds)
        | '-' :: ds => (true, ds)
        | ds => (false, ds)
      if ds ≠ [] ∧ ds.all Char.isDigit then
        some (if neg then -(digitsVal ds : Int) else (digitsVal ds : Int))
      else none
    else none

/-- Embeds the decimal grammar of Go `strconv.ParseFloat(s, 64)`:
`[+-]? (digits [. digits?] | . digits) ([eE][+-]?digits)?`, evaluated exactly
as a rational.  Go additionally accepts case variants of `inf`/`nan`, hex
mantissas and digit-separating underscores, and reports a range error above
the `float64` maximum; none of these is exercised by the claims and all are
embedded as `none` here (parse failure).  The `float64` rounding of the
decimal value is not modelled (claim values are exactly representable). -/
def parseFloat (s : String) : Option Rat :=
  let (neg, l) :=
    match s.data with
    | '+' :: l => (false, l)
    | '-' :: l => (true, l)
    | l => (false, l)
  let ip := l.takeWhile Char.isDigit
  let r1 := l.dropWhile Char.isDigit
  let mant : Option (Nat × Nat × List Char) :=
    match r1 with
    | '.' :: r2 =>
      let fp := r2.takeWhile Char.isDigit
      let r3 := r2.dropWhile Char.isDigit
      if ip = [] ∧ fp = [] then none
      else some (digitsVal ip * 10 ^ fp.length + digitsVal fp, fp.length, r3)
    | _ => if ip = [] then none else some (digitsVal ip, 0, r1)
  match mant with
  | none => none
  | some (m, scale, rest) =>
    match parseExp rest with
    | none => none
    | some e =>
      let sgn : Int := if neg then -1 else 1
      if 0 ≤ e then
        some (mkRat (sgn * (m : Int) * (10 : Int) ^ e.toNat) (10 ^ scale))
      else
        some (mkRat (sgn * (m : Int)) (10 ^ scale * 10 ^ (-e).toNat))

/-! ## Static tables (`upscVarFloat`, `sensorStringMapping`)

Go maps with string keys, embedded as association lists with unique keys;
`lookup` embeds Go map indexing. -/

/-- Embeds the Go map `upscVarFloat`: sensor-native field identifier to
output metric name. -/
def upscVarFloat : List (String × String) :=
  [ ("battery.charge", "upsc_battery_charge"),
    ("battery.charge.low", "upsc_battery_charge_low"),
    ("battery.voltage", "upsc_battery_voltage"),
    ("battery.voltage.high", "upsc_battery_voltage_high"),
    ("battery.voltage.low", "upsc_battery_voltage_low"),
    ("battery.voltage.nominal", "upsc_battery_voltage_nominal"),
    ("input.frequency", "upsc_input_frequency"),
    ("input.frequency.nominal", "upsc_input_frequency_nominal"),
    ("input.voltage", "upsc_input_voltage"),
    ("input.voltage.fault", "upsc_input_voltage_fault"),
    ("input.voltage.nominal", "upsc_input_voltage_nominal"),
    ("input.current", "upsc_input_current"),
    ("output.voltage", "upsc_output_voltage"),
    ("ups.beeper.status", "upsc_ups_beeper_enabled"),
    ("ups.delay.shutdown", "upsc_ups_delay_shutdown"),
    ("ups.delay.start", "upsc_ups_delay_start"),
    ("ups.load", "upsc_ups_load"),
    ("ups.status", "upsc_ups_online"),
    ("ups.temperature", "upsc_ups_temperature") ]

/-- Embeds the Go map `sensorStringMapping`: symbolic reading to numeric
code (values are exact in `float64` and in `Rat`). -/
def sensorStringMapping : List (String × Rat) :=
  [ ("enabled", mkRat 1 1),
    ("disabled", mkRat 0 1),
    ("OL", mkRat 2 1),
    ("FSD OL", mkRat 3 2),
    ("OB", mkRat 1 1),
    ("FSD OB", mkRat 1 2),
    ("LB", mkRat 0 1) ]

/-! ## The sensor -/

/-- Embeds the Go struct `Sensor`.  The compiled `Re` field is represented by
the `Ups` name it was interpolated from: matching is `findStringSubmatch Ups`. -/
structure Sensor where
  Labels : String
  Host : String
  Ups : String
  BeginToken : String
  EndToken : String
deriving DecidableEq

/-- Embeds the tail of `NewSensor` after the options switch: the
`regexp.Compile` step (see `upsPatternOk`; on failure Go returns the
compile error) and the construction of the `Sensor` literal.  The initial
connectivity probe `net.DialTimeout` between the two only logs on failure and
never affects the returned value, so it has no counterpart here. -/
def mkSensor (ups host labels : String) : Except String Sensor :=
  if upsPatternOk ups then
    Except.ok { Labels := labels, Host := host, Ups := ups,
                BeginToken := "BEGIN LIST VAR " ++ ups ++ "\n",
                EndToken := "END LIST VAR " ++ ups ++ "\n" }
  else
    Except.error ("Upsc, could not compile regural expression: VAR " ++ ups
      ++ " ([a-zA-Z.]*) \"(.*)\"")

/-- Embeds Go `NewSensor(opts string) (sensor.Collector, error)`: splits the
options on `@`; two parts give `ups@host` with the port defaulted to `3493`
when absent and the port stripped from the host label; one part gives a local
sensor at `localhost:3493`; any other arity is a configuration error. -/
def NewSensor (opts : String) : Except String Sensor :=
  match splitCh '@' opts.data with
  | [u, h] =>
    let hostParts := splitCh ':' h
    let host := if hostParts.length = 1 then String.mk h ++ ":3493" else String.mk h
    let labels := "\x7bups=\"" ++ String.mk u ++ "\",host=\""
      ++ String.mk (hostParts.headD []) ++ "\"\x7d"
    mkSensor (String.mk u) host labels
  | [u] =>
    mkSensor (String.mk u) "localhost:3493" ("\x7bups=\"" ++ String.mk u ++ "\"\x7d")
  | _ =>
    Except.error ("Upsc, could not understand UPS URI. Empty or too many '@'?. Opts: " ++ opts)

/-! ## The scrape

`Scrape` is embedded with the network explicit: `DialRes` is the outcome of
`net.DialTimeout` and the `List ReadRes` argument is the trace of outcomes the
successive `reader.ReadString('\n')` calls yield on this connection.  bufio
guarantees that a `ReadRes.line` value ends in the delimiter `'\n'` (a read
that ends early returns an error instead); that guarantee is a hypothesis of
the theorems that need it, never assumed by the definitions. -/

/-- Outcome of one `reader.ReadString('\n')` call: a line on `err == nil`,
or a read error. -/
inductive ReadRes where
  | line (s : String)
  | fail
deriving DecidableEq

/-- Outcome of `net.DialTimeout`. -/
inductive DialRes where
  | ok
  | fail
deriving DecidableEq

/-- Which `return`/`break` path of the Go `Scrape` produced the result; pure
instrumentation of the source's control flow, carrying no data of its own. -/
inductive ScrapeExit where
  /-- `net.DialTimeout` failed. -/
  | dialFail
  /-- the first `ReadString` returned an error. -/
  | firstReadFail
  /-- the first line equalled `"ERR UNKNOWN-UPS"`. -/
  | unknownUps
  /-- the first line differed from `s.BeginToken`. -/
  | unknownResp
  /-- a `ReadString` inside the loop returned an error. -/
  | loopReadFail
  /-- a matched value had no symbolic mapping and failed `strconv.ParseFloat`. -/
  | parseFail
  /-- the end-of-list token was reached. -/
  | endOfList
  /-- the finite read trace was consumed without reaching an exit; a real
  reader never stops yielding outcomes, so no theorem relies on this case. -/
  | exhausted
deriving DecidableEq

/-- Result of one scrape: the two Go return values `(out, e)` — `e` is `nil`
on every path of the source, kept as a field so the theorems can state it —
plus the number of `sensor.Incident()` calls made and the exit path taken. -/
structure ScrapeResult where
  out : String
  err : Option String
  incidents : Nat
  exit : ScrapeExit
deriving DecidableEq

/-- Modelled from the spec: `sensor.Incident` (package `sensor`, whose source
is not under `src/`) atomically increments the process-wide IncidentCount by
one, so a scrape making `r.incidents` such calls moves the counter from `n`
to `n + r.incidents`. -/
def incidentCountAfter (n : Nat) (r : ScrapeResult) : Nat :=
  n + r.incidents

/-- Embeds the reading computation for a matched `(field, raw)` pair: the
symbolic `sensorStringMapping` entry if one exists, otherwise
`strconv.ParseFloat(raw, 64)`; `none` is the parse-error path. -/
def lineReading (raw : String) : Option Rat :=
  match sensorStringMapping.lookup raw with
  | some code => some code
  | none => parseFloat raw

/-- Embeds the body of the response loop for one line `res` with accumulated
output `acc`: `some` of the new accumulated output (unchanged when the line
does not match or its field is unknown), `none` on the parse-error `break`. -/
def processLine (sen : Sensor) (res acc : String) : Option String :=
  match findStringSubmatch sen.Ups res with
  | some (f, raw) =>
    match upscVarFloat.lookup f with
    | some metric =>
      match lineReading raw with
      | some reading => some (acc ++ metric ++ sen.Labels ++ " " ++ fmt2 reading ++ "\n")
      | none => none
    | none => some acc
  | none => some acc

/-- Embeds the `for` loop of `Scrape`: read a line (an error returns `("",
nil)` after one incident, discarding `acc`), process it, on parse failure
`break` out returning the accumulated `acc` after one incident, and otherwise
check for the end-of-list token after the processing, exactly in source
order. -/
def scrapeLoop (sen : Sensor) : List ReadRes → String → ScrapeResult
  | [], acc => ⟨acc, none, 0, ScrapeExit.exhausted⟩
  | ReadRes.fail :: _, _ => ⟨"", none, 1, ScrapeExit.loopReadFail⟩
  | ReadRes.line res :: rest, acc =>
    match processLine sen res acc with
    | none => ⟨acc, none, 1, ScrapeExit.parseFail⟩
    | some acc2 =>
      if res = sen.EndToken then ⟨acc2, none, 0, ScrapeExit.endOfList⟩
      else scrapeLoop sen rest acc2

/-- Embeds Go `func (s Sensor) Scrape() (out string, e error)`: dial, send
`LIST VAR <ups>` (writing has no observable outcome here), read the first
line, dispatch on `"ERR UNKNOWN-UPS"` / `s.BeginToken`, then run the loop.
The deferred `conn.Close()` releases the connection on every path and has no
counterpart in the pure embedding. -/
def Sensor.Scrape (sen : Sensor) (dial : DialRes) (reads : List ReadRes) : ScrapeResult :=
  match dial with
  | DialRes.fail => ⟨"", none, 1, ScrapeExit.dialFail⟩
  | DialRes.ok =>
    match reads with
    | [] => ⟨"", none, 0, ScrapeExit.exhausted⟩
    | ReadRes.fail :: _ => ⟨"", none, 1, ScrapeExit.firstReadFail⟩
    | ReadRes.line res :: rest =>
      if res = "ERR UNKNOWN-UPS" then ⟨"", none, 1, ScrapeExit.unknownUps⟩
      else if res ≠ sen.BeginToken then ⟨"", none, 1, ScrapeExit.unknownResp⟩
      else scrapeLoop sen rest ""

/-- The concrete test sensor built by `NewSensor "dev"` (see
`NewSensor_dev`), used by the concrete scrape evaluations. -/
def devSensor : Sensor :=
  { Labels := "\x7bups=\"dev\"\x7d", Host := "localhost:3493", Ups := "dev",
    BeginToken := "BEGIN LIST VAR dev\n", EndToken := "END LIST VAR dev\n" }



/-- Whether a string ends in the newline delimiter.  bufio's `ReadString`
returns `err == nil` only when the delimiter was found, so every `ReadRes.line`
value a real connection yields satisfies `endsNewline`. -/
def endsNewline (s : String) : Bool :=
  s.data.getLast? == some '\n'

/-! ## Theorems -/

theorem splitCh_ne_nil (c : Char) (l : List Char) : splitCh c l ≠ [] := by
  induction l with
  | nil => simp [splitCh]
  | cons x xs ih =>
    simp only [splitCh]
    split
    · simp
    · cases h : splitCh c xs with
      | nil => exact absurd h ih
      | cons g gs => simp

theorem splitCh_no_sep (c : Char) (xs : List Char) (h : c ∉ xs) :
    splitCh c xs = [xs] := by
  induction xs with
  | nil => rfl
  | cons x l ih =>
    simp only [List.mem_cons, not_or] at h
    simp only [splitCh]
    rw [if_neg (fun hx => h.1 hx.symm), ih h.2]

theorem splitCh_append_sep (c : Char) (xs ys : List Char) (h : c ∉ xs) :
    splitCh c (xs ++ c :: ys) = xs :: splitCh c ys := by
  induction xs with
  | nil => simp [splitCh]
  | cons x l ih =>
    simp only [List.mem_cons, not_or] at h
    simp only [List.cons_append, splitCh]
    rw [if_neg (fun hx => h.1 hx.symm)]
    simp only [List.append_eq]
    rw [ih h.2]

theorem NewSensor_dev : NewSensor "dev" = Except.ok devSensor := rfl

/-- C1: for every scrape whose transport connection attempt fails, `Scrape`
returns the empty string and a nil error, and the process-wide IncidentCount
grows by exactly 1 for that scrape, whatever the instance and whatever the
connection would have yielded. -/
theorem scrape_connect_failure (sen : Sensor) (reads : List ReadRes) (n : Nat) :
    Sensor.Scrape sen DialRes.fail reads
      = ⟨"", none, 1, ScrapeExit.dialFail⟩ ∧
    incidentCountAfter n (Sensor.Scrape sen DialRes.fail reads) = n + 1 :=
  ⟨rfl, rfl⟩

/-- C2: when a matched field's raw value has no `sensorStringMapping` entry
and fails to parse as a float, the response loop stops at that line (the rest
of the trace is never consumed), exactly one incident is counted, and the
output accumulated before the failing line is returned with a nil error. -/
theorem scrape_parse_failure (sen : Sensor) (res : String) (rest : List ReadRes)
    (acc f raw metric : String)
    (h1 : findStringSubmatch sen.Ups res = some (f, raw))
    (h2 : upscVarFloat.lookup f = some metric)
    (h3 : sensorStringMapping.lookup raw = none)
    (h4 : parseFloat raw = none) :
    scrapeLoop sen (ReadRes.line res :: rest) acc
      = ⟨acc, none, 1, ScrapeExit.parseFail⟩ := by
  simp [scrapeLoop, processLine, lineReading, h1, h2, h3, h4]

/-- Witness for C2: the value `4x2` has no symbolic mapping and is not a
number, so the scrape loop keeps the previously accumulated load line, counts
one incident, and never reads the remaining end-of-list line. -/
theorem scrape_parse_failure_witness :
    scrapeLoop devSensor
        [ReadRes.line "VAR dev battery.charge \"4x2\"\n",
         ReadRes.line devSensor.EndToken]
        "upsc_ups_load\x7bups=\"dev\"\x7d 14.00\n"
      = ⟨"upsc_ups_load\x7bups=\"dev\"\x7d 14.00\n", none, 1, ScrapeExit.parseFail⟩ :=
  scrape_parse_failure devSensor _ _ _ "battery.charge" "4x2" "upsc_battery_charge"
    (by decide) (by decide) (by decide) (by decide)

/-- C6: a response consisting of the begin marker, the single variable line
`VAR dev battery.charge "42"` and the end marker yields exactly the one
output line `upsc_battery_charge{ups="dev"} 42.00`, no incident and a nil
error. -/
theorem scrape_roundtrip_battery_charge :
    Sensor.Scrape devSensor DialRes.ok
        [ReadRes.line devSensor.BeginToken,
         ReadRes.line "VAR dev battery.charge \"42\"\n",
         ReadRes.line devSensor.EndToken]
      = ⟨"upsc_battery_charge\x7bups=\"dev\"\x7d 42.00\n", none, 0, ScrapeExit.endOfList⟩ :=
  rfl

/-- C7: a matched field whose raw value has a `sensorStringMapping` entry is
emitted with that table's numeric code: the loop appends the metric line
formatted from the code and keeps going. -/
theorem scrape_symbolic_mapping (sen : Sensor) (res : String) (rest : List ReadRes)
    (acc f raw metric : String) (code : Rat)
    (h1 : findStringSubmatch sen.Ups res = some (f, raw))
    (h2 : upscVarFloat.lookup f = some metric)
    (h3 : sensorStringMapping.lookup raw = some code)
    (hend : res ≠ sen.EndToken) :
    scrapeLoop sen (ReadRes.line res :: rest) acc
      = scrapeLoop sen rest (acc ++ metric ++ sen.Labels ++ " " ++ fmt2 code ++ "\n") := by
  simp [scrapeLoop, processLine, lineReading, h1, h2, h3, hend]

/-- Witness for C7: an `ups.status` value of `OL` yields `2.00` and a value
of `LB` yields `0.00` on the `upsc_ups_online` metric. -/
theorem scrape_symbolic_mapping_witness :
    scrapeLoop devSensor
        [ReadRes.line "VAR dev ups.status \"OL\"\n", ReadRes.line devSensor.EndToken] ""
      = ⟨"upsc_ups_online\x7bups=\"dev\"\x7d 2.00\n", none, 0, ScrapeExit.endOfList⟩ ∧
    scrapeLoop devSensor
        [ReadRes.line "VAR dev ups.status \"LB\"\n", ReadRes.line devSensor.EndToken] ""
      = ⟨"upsc_ups_online\x7bups=\"dev\"\x7d 0.00\n", none, 0, ScrapeExit.endOfList⟩ := by
  constructor
  · rw [scrape_symbolic_mapping devSensor _ _ _ "ups.status" "OL" "upsc_ups_online" (mkRat 2 1)
      (by decide) (by decide) (by decide) (by decide)]
    rfl
  · rw [scrape_symbolic_mapping devSensor _ _ _ "ups.status" "LB" "upsc_ups_online" (mkRat 0 1)
      (by decide) (by decide) (by decide) (by decide)]
    rfl

/-- C8: a matched line whose field name has no `upscVarFloat` entry changes
nothing: no output line, no incident, and the loop continues on the remaining
lines with the same accumulated output. -/
theorem scrape_unknown_field (sen : Sensor) (res : String) (rest : List ReadRes)
    (acc f raw : String)
    (h1 : findStringSubmatch sen.Ups res = some (f, raw))
    (h2 : upscVarFloat.lookup f = none)
    (hend : res ≠ sen.EndToken) :
    scrapeLoop sen (ReadRes.line res :: rest) acc = scrapeLoop sen rest acc := by
  simp [scrapeLoop, processLine, h1, h2, hend]

/-- Witness for C8: the field `ups.mfr` is absent from `upscVarFloat`, so its
line is dropped and the scrape then finishes on the end marker with empty
output and no incident. -/
theorem scrape_unknown_field_witness :
    scrapeLoop devSensor
        [ReadRes.line "VAR dev ups.mfr \"APC\"\n", ReadRes.line devSensor.EndToken] ""
      = ⟨"", none, 0, ScrapeExit.endOfList⟩ := by
  rw [scrape_unknown_field devSensor _ _ _ "ups.mfr" "APC"
    (by decide) (by decide) (by decide)]
  decide

/-- C10: the empty options string is accepted: construction succeeds with an
empty device name, label set `{ups=""}` and host `localhost:3493`. -/
theorem newSensor_empty_opts :
    NewSensor ""
      = Except.ok { Labels := "\x7bups=\"\"\x7d", Host := "localhost:3493", Ups := "",
                    BeginToken := "BEGIN LIST VAR \n", EndToken := "END LIST VAR \n" } :=
  rfl

/-- C4: for every well-formed `device@host:port` options string — the device
name plain (no `@`, no regex metacharacter) and the host free of `@` and `:`
— construction succeeds and the label set is built from the device name and
the bare host only: it equals `{ups="<device>",host="<host>"}`, an expression
in which the port does not occur, while the port stays in the dial target
`Host`. -/
theorem newSensor_label_excludes_port (device host port : String)
    (hd : '@' ∉ device.data)
    (hh1 : '@' ∉ host.data) (hh2 : ':' ∉ host.data)
    (hp : '@' ∉ port.data)
    (hok : upsPatternOk device = true) :
    NewSensor (device ++ "@" ++ host ++ ":" ++ port)
      = Except.ok { Labels := "\x7bups=\"" ++ device ++ "\",host=\"" ++ host ++ "\"\x7d",
                    Host := host ++ ":" ++ port,
                    Ups := device,
                    BeginToken := "BEGIN LIST VAR " ++ device ++ "\n",
                    EndToken := "END LIST VAR " ++ device ++ "\n" } := by
  have hdata : (device ++ "@" ++ host ++ ":" ++ port).data
      = device.data ++ '@' :: (host.data ++ ':' :: port.data) := by
    simp [String.data_append]
  have hrest : '@' ∉ host.data ++ ':' :: port.data := by
    intro hmem
    rcases List.mem_append.mp hmem with h | h
    · exact hh1 h
    · rcases List.mem_cons.mp h with h | h
      · exact absurd h (by decide)
      · exact hp h
  have hsplit : splitCh '@' (device ++ "@" ++ host ++ ":" ++ port).data
      = [device.data, host.data ++ ':' :: port.data] := by
    rw [hdata, splitCh_append_sep '@' device.data _ hd, splitCh_no_sep '@' _ hrest]
  have hhost : splitCh ':' (host.data ++ ':' :: port.data)
      = host.data :: splitCh ':' port.data :=
    splitCh_append_sep ':' host.data port.data hh2
  have hlen : (host.data :: splitCh ':' port.data).length ≠ 1 := by
    intro h
    exact splitCh_ne_nil ':' port.data
      (List.length_eq_zero.mp (Nat.succ_injective h))
  simp only [NewSensor, hsplit, hhost, hlen, if_false, List.headD_cons, mkSensor, hok,
    if_true, ite_false, ite_true]
  simp only [String.ext_iff, String.data_append, List.append_assoc, List.cons_append,
    List.nil_append, Except.ok.injEq, Sensor.mk.injEq]
  and_intros <;> trivial

/-- Witness for C4: `apc@nas:3494` constructs with label set
`{ups="apc",host="nas"}` — the port `3494` appears only in the dial target. -/
theorem newSensor_label_excludes_port_witness :
    NewSensor "apc@nas:3494"
      = Except.ok { Labels := "\x7bups=\"apc\",host=\"nas\"\x7d",
                    Host := "nas:3494",
                    Ups := "apc",
                    BeginToken := "BEGIN LIST VAR apc\n",
                    EndToken := "END LIST VAR apc\n" } :=
  newSensor_label_excludes_port "apc" "nas" "3494"
    (by decide) (by decide) (by decide) (by decide) (by decide)

/-- C5: a plain `device` options string (no `@`) constructs an instance whose
dial target is `localhost:3493` (local host, well-known port), and a
`device@host` options string without an explicit port defaults the port: the
dial target is `host:3493`. -/
theorem newSensor_default_host_and_port (device host : String)
    (hd : '@' ∉ device.data)
    (hok : upsPatternOk device = true) :
    NewSensor device
      = Except.ok { Labels := "\x7bups=\"" ++ device ++ "\"\x7d",
                    Host := "localhost:3493",
                    Ups := device,
                    BeginToken := "BEGIN LIST VAR " ++ device ++ "\n",
                    EndToken := "END LIST VAR " ++ device ++ "\n" } ∧
    ('@' ∉ host.data → ':' ∉ host.data →
      NewSensor (device ++ "@" ++ host)
        = Except.ok { Labels := "\x7bups=\"" ++ device ++ "\",host=\"" ++ host ++ "\"\x7d",
                      Host := host ++ ":3493",
                      Ups := device,
                      BeginToken := "BEGIN LIST VAR " ++ device ++ "\n",
                      EndToken := "END LIST VAR " ++ device ++ "\n" }) := by
  constructor
  · have hsplit : splitCh '@' device.data = [device.data] := splitCh_no_sep '@' _ hd
    simp only [NewSensor, hsplit, mkSensor, hok, if_true, ite_true]
  · intro hh1 hh2
    have hdata : (device ++ "@" ++ host).data = device.data ++ '@' :: host.data := by
      simp [String.data_append]
    have hsplit : splitCh '@' (device ++ "@" ++ host).data = [device.data, host.data] := by
      rw [hdata, splitCh_append_sep '@' device.data _ hd, splitCh_no_sep '@' _ hh1]
    have hhost : splitCh ':' host.data = [host.data] := splitCh_no_sep ':' _ hh2
    simp only [NewSensor, hsplit, hhost, List.length_singleton, List.headD_cons,
      mkSensor, hok, if_true, ite_true]

/-- Witness for C5: `apc` alone targets `localhost:3493`; `apc@nas` targets
`nas:3493`. -/
theorem newSensor_default_host_and_port_witness :
    NewSensor "apc"
      = Except.ok { Labels := "\x7bups=\"apc\"\x7d",
                    Host := "localhost:3493",
                    Ups := "apc",
                    BeginToken := "BEGIN LIST VAR apc\n",
                    EndToken := "END LIST VAR apc\n" } ∧
    NewSensor "apc@nas"
      = Except.ok { Labels := "\x7bups=\"apc\",host=\"nas\"\x7d",
                    Host := "nas:3493",
                    Ups := "apc",
                    BeginToken := "BEGIN LIST VAR apc\n",
                    EndToken := "END LIST VAR apc\n" } :=
  have h := newSensor_default_host_and_port "apc" "nas" (by decide) (by decide)
  ⟨h.1, h.2 (by decide) (by decide)⟩

theorem scrapeLoop_exit_ne_unknownUps (sen : Sensor) (reads : List ReadRes) (acc : String) :
    (scrapeLoop sen reads acc).exit ≠ ScrapeExit.unknownUps := by
  induction reads generalizing acc with
  | nil => simp [scrapeLoop]
  | cons r rest ih =>
    cases r with
    | fail => simp [scrapeLoop]
    | line res =>
      cases h : processLine sen res acc with
      | none => simp [scrapeLoop, h]
      | some acc2 =>
        simp only [scrapeLoop, h]
        by_cases he : res = sen.EndToken
        · simp [he]
        · simp only [he, ite_false, if_neg he]
          exact ih acc2

/-- C9: over any read trace whose successful lines all end in the newline
delimiter — which bufio's `ReadString('\n')` guarantees whenever it returns a
nil error — `Scrape` never takes the dedicated unknown-device branch (its
comparand `"ERR UNKNOWN-UPS"` lacks the newline), and an actual unknown-device
reply line is handled by the generic unknown-response branch: one incident,
empty output, nil error. -/
theorem scrape_unknown_ups_branch_unreachable (sen : Sensor) (dial : DialRes)
    (reads : List ReadRes)
    (hnl : ∀ l, ReadRes.line l ∈ reads → endsNewline l = true)
    (hb : sen.BeginToken ≠ "ERR UNKNOWN-UPS\n") :
    (Sensor.Scrape sen dial reads).exit ≠ ScrapeExit.unknownUps ∧
    (∀ rest, Sensor.Scrape sen DialRes.ok (ReadRes.line "ERR UNKNOWN-UPS\n" :: rest)
      = ⟨"", none, 1, ScrapeExit.unknownResp⟩) := by
  constructor
  · cases dial with
    | fail => simp [Sensor.Scrape]
    | ok =>
      cases reads with
      | nil => simp [Sensor.Scrape]
      | cons r rest =>
        cases r with
        | fail => simp [Sensor.Scrape]
        | line res =>
          have hres : endsNewline res = true := hnl res (List.mem_cons_self _ _)
          simp only [Sensor.Scrape]
          by_cases h1 : res = "ERR UNKNOWN-UPS"
          · subst h1
            exact absurd hres (by decide)
          · rw [if_neg h1]
            by_cases h2 : res = sen.BeginToken
            · rw [if_neg (fun hc => hc h2)]
              exact scrapeLoop_exit_ne_unknownUps sen rest ""
            · rw [if_pos h2]
              decide
  · intro rest
    simp only [Sensor.Scrape]
    rw [if_neg (by decide : ¬ ("ERR UNKNOWN-UPS\n" = "ERR UNKNOWN-UPS"))]
    rw [if_pos (fun hc => hb hc.symm)]

/-- Witness for C9: on the one-line trace `ERR UNKNOWN-UPS` followed by the
delimiter, the exit is the generic unknown-response branch, not the dedicated
unknown-device branch. -/
theorem scrape_unknown_ups_branch_unreachable_witness :
    (Sensor.Scrape devSensor DialRes.ok [ReadRes.line "ERR UNKNOWN-UPS\n"]).exit
        ≠ ScrapeExit.unknownUps ∧
    Sensor.Scrape devSensor DialRes.ok [ReadRes.line "ERR UNKNOWN-UPS\n"]
        = ⟨"", none, 1, ScrapeExit.unknownResp⟩ :=
  have h := scrape_unknown_ups_branch_unreachable devSensor DialRes.ok
    [ReadRes.line "ERR UNKNOWN-UPS\n"]
    (by
      intro l hl
      simp only [List.mem_singleton, ReadRes.line.injEq] at hl
      subst hl
      decide)
    (by decide)
  ⟨h.1, h.2 []⟩

end SensorUpsc
